import Mathlib

/-!
Verification of the PayGuard fraud-scoring core: the fraud scoring engine
(rule evaluation, exclusion pass, clamping, decision policy), the
explanation cache for LLM risk summaries, and the request-validation
boundary, as documented in the repository README and specification.

The repository ships its behaviour documentation (src/README.md) but the
TypeScript service sources (fraud.service.ts, llm.service.ts,
validation.service.ts, …) are not present; the definitions below are
therefore modelled from the specification and README, as noted on each.
-/

namespace PayGuard

/-- The accept/decline decision. The README uses "safe" (HTTP 200) for the
accepted outcome and "declined" (HTTP 403) for the other. -/
inductive Decision where
  | accepted
  | declined
deriving DecidableEq, Repr

/-- Modelled from the spec: ChargeContext, the immutable record rule
conditions may read — {amount, currency, source, email}
(spec §3; README "Request Body"). Amounts are modelled as rationals. -/
structure ChargeContext where
  amount : ℚ
  currency : String
  source : String
  email : String
deriving DecidableEq, Repr

/-- Boolean test that `pat` occurs as a prefix of `s` (as character lists). -/
def startsWithL : List Char → List Char → Bool
  | [], _ => true
  | _ :: _, [] => false
  | p :: ps, c :: cs => p == c && startsWithL ps cs

/-- Boolean test that `pat` occurs as a contiguous substring of `s`. -/
def containsL (pat : List Char) : List Char → Bool
  | [] => pat.isEmpty
  | c :: t => startsWithL pat (c :: t) || containsL pat t

/-- Substring containment on strings. -/
def strContains (s pat : String) : Bool :=
  containsL pat.toList s.toList

/-- Boolean test that `pat` is a suffix of `s`. -/
def strEndsWith (s pat : String) : Bool :=
  startsWithL pat.toList.reverse s.toList.reverse

/-- Modelled from the spec: the declarative condition shapes of the
Condition Evaluator (spec §4.1, §9): numeric comparisons on `amount`,
string suffix / containment checks on `email`, set-membership checks on
`currency` and `source`, with negation and disjunction to express the
README's configured rules (fraudRules.json is absent from the sources). -/
inductive Cond where
  | amountGt (n : ℚ)
  | amountGe (n : ℚ)
  | amountLt (n : ℚ)
  | amountLe (n : ℚ)
  | emailSfx (s : String)
  | emailHas (s : String)
  | currencyIn (cs : List String)
  | sourceIn (ss : List String)
  | negC (c : Cond)
  | orC (a b : Cond)
deriving DecidableEq, Repr

/-- Modelled from the spec: the Condition Evaluator — evaluate one rule's
condition against a ChargeContext, returning a boolean (spec §4.1). -/
def evalCond (ctx : ChargeContext) : Cond → Bool
  | .amountGt n => decide (n < ctx.amount)
  | .amountGe n => decide (n ≤ ctx.amount)
  | .amountLt n => decide (ctx.amount < n)
  | .amountLe n => decide (ctx.amount ≤ n)
  | .emailSfx s => strEndsWith ctx.email s
  | .emailHas s => strContains ctx.email s
  | .currencyIn cs => cs.contains ctx.currency
  | .sourceIn ss => ss.contains ctx.source
  | .negC c => !(evalCond ctx c)
  | .orC a b => evalCond ctx a || evalCond ctx b

/-- Modelled from the spec: FraudRule — {id, label, condition, weight}
(spec §3; README "Fraud Rules"). -/
structure FraudRule where
  id : String
  label : String
  condition : Cond
  weight : ℚ
deriving DecidableEq, Repr

/-- Modelled from the spec: the exclusion table {loserId → winnerId}
declaring "rule A excluded by rule B" pairs (spec §4.2, §6). -/
abbrev ExclusionTable := List (String × String)

/-- Modelled from the spec: ScoreResult — {score, triggeredRuleIds,
decision} (spec §3). -/
structure ScoreResult where
  score : ℚ
  triggeredRuleIds : List String
  decision : Decision
deriving DecidableEq, Repr

/-- Modelled from the spec: the decision threshold, a named configuration
constant (spec §4.3; README "Risk Assessment": score ≥ 0.5 ⇒ declined). -/
def RISK_THRESHOLD : ℚ := 1/2

/-- Modelled from the spec: the Decision Policy — score ≥ 0.5 ⇒ declined,
otherwise accepted (spec §4.3; README lines 182–185). -/
def decideScore (s : ℚ) : Decision :=
  if RISK_THRESHOLD ≤ s then .declined else .accepted

/-- Clamp a rational to [0,1] (spec §4.2 step 4). -/
def clamp01 (x : ℚ) : ℚ := max 0 (min 1 x)

/-- Modelled from the spec: step 2 of the scoring algorithm — the subset
of rules whose condition is true, in RuleSet order (spec §4.2). -/
def triggeredRules (ctx : ChargeContext) (rules : List FraudRule) : List FraudRule :=
  rules.filter (fun r => evalCond ctx r.condition)

/-- Modelled from the spec: step 3, the exclusion pass — a triggered rule
is dropped when the table marks it as superseded by another triggered rule
(spec §4.2). -/
def survivors (ctx : ChargeContext) (rules : List FraudRule) (excl : ExclusionTable) :
    List FraudRule :=
  let trig := triggeredRules ctx rules
  trig.filter (fun r => !(excl.any (fun p => p.1 == r.id && trig.any (fun w => w.id == p.2))))

/-- Modelled from the spec: step 4's raw aggregate — the sum of the
surviving rules' weights before clamping (spec §4.2). -/
def rawScore (ctx : ChargeContext) (rules : List FraudRule) (excl : ExclusionTable) : ℚ :=
  ((survivors ctx rules excl).map (fun r => r.weight)).sum

/-- Modelled from the spec: the Fraud Scoring Engine —
`score(context, rules) -> ScoreResult`: evaluate all rules, apply the
exclusion pass, sum and clamp to [0,1], report surviving ids in RuleSet
order, decide by the fixed threshold (spec §4.2–4.3; README lines 173–185). -/
def scoreCharge (ctx : ChargeContext) (rules : List FraudRule) (excl : ExclusionTable) :
    ScoreResult :=
  let s := clamp01 (rawScore ctx rules excl)
  { score := s
    triggeredRuleIds := (survivors ctx rules excl).map (fun r => r.id)
    decision := decideScore s }

/-- Modelled from the spec: "High Amount: +0.3 points if amount > $5,000"
(README line 175). -/
def highAmountRule : FraudRule :=
  { id := "high_amount", label := "High Amount"
    condition := .amountGt 5000, weight := 3/10 }

/-- Modelled from the spec: "Very High Amount: +0.5 points if amount >
$10,000 (mutually exclusive with High Amount)" (README line 176). -/
def veryHighAmountRule : FraudRule :=
  { id := "very_high_amount", label := "Very High Amount"
    condition := .amountGt 10000, weight := 1/2 }

/-- Modelled from the spec: "Risky Domain: +0.4 points if email ends
with .ru or .xyz" (README line 177). -/
def riskyDomainRule : FraudRule :=
  { id := "risky_domain", label := "Risky Domain"
    condition := .orC (.emailSfx ".ru") (.emailSfx ".xyz"), weight := 2/5 }

/-- Modelled from the spec: "Non-Standard Currency: +0.2 points if
currency is not USD, EUR, or INR" (README line 178). -/
def nonStandardCurrencyRule : FraudRule :=
  { id := "non_standard_currency", label := "Non-Standard Currency"
    condition := .negC (.currencyIn ["USD", "EUR", "INR"]), weight := 1/5 }

/-- Modelled from the spec: "Suspicious Email Pattern: +0.1 points for
test/temp emails" (README line 179). -/
def suspiciousEmailRule : FraudRule :=
  { id := "suspicious_email", label := "Suspicious Email Pattern"
    condition := .orC (.emailHas "test") (.emailHas "temp"), weight := 1/10 }

/-- Modelled from the spec: "Non-Standard Payment Source: +0.3 points
for non-standard sources" (README line 180), with stripe and paypal the
standard sources (README line 170). -/
def nonStandardSourceRule : FraudRule :=
  { id := "non_standard_source", label := "Non-Standard Payment Source"
    condition := .negC (.sourceIn ["stripe", "paypal"]), weight := 3/10 }

/-- Modelled from the spec: the configured ruleset of README lines
173–180 (fraudRules.json is absent). -/
def defaultRules : List FraudRule :=
  [ highAmountRule, veryHighAmountRule, riskyDomainRule,
    nonStandardCurrencyRule, suspiciousEmailRule, nonStandardSourceRule ]

/-- Modelled from the spec: the configured exclusion table — high_amount
is superseded by very_high_amount (spec §4.2; README line 176). -/
def defaultExcl : ExclusionTable := [("high_amount", "very_high_amount")]

/-- Modelled from the spec: the risky-domain configuration file
riskyDomains.json, which "contains domains like .ru, .xyz, temp.com, etc."
(README lines 52–56). -/
def riskyDomainsConfig : List String := [".ru", ".xyz", "temp.com"]

/-- The label the README attaches to each decision ("safe" for the 200
response, "declined" for the 403 response). -/
def decisionLabel : Decision → String
  | .accepted => "safe"
  | .declined => "declined"

/-- Insert a string into an already sorted list, keeping it sorted. -/
def insertSorted (x : String) : List String → List String
  | [] => [x]
  | y :: ys => if x ≤ y then x :: y :: ys else y :: insertSorted x ys

/-- Lexicographic insertion sort on strings (spec §4.4: the cache key
sorts the triggered rule ids lexicographically). -/
def sortStrings : List String → List String
  | [] => []
  | x :: xs => insertSorted x (sortStrings xs)

/-- Modelled from the spec: the CacheKey — sort triggeredRuleIds
lexicographically and concatenate with the decision (spec §3, §4.4;
llm.service.ts is absent). -/
def cacheKey (ids : List String) (d : Decision) : String :=
  String.intercalate "," (sortStrings ids) ++ "|" ++ decisionLabel d

/-- Modelled from the spec: the Explanation Cache's store — cache entries
{key, explanation}, owned exclusively by the cache (spec §3; the
timestamp plays no role in lookup and is omitted). -/
structure Cache where
  entries : List (String × String)
deriving DecidableEq, Repr

/-- The empty cache, the store's state at process start. -/
def emptyCache : Cache := ⟨[]⟩

/-- Number of entries currently stored (README "cacheSize"). -/
def cacheSize (c : Cache) : Nat := c.entries.length

/-- Look a key up in the store. -/
def lookupCache (c : Cache) (k : String) : Option String :=
  match c.entries.find? (fun e => e.1 == k) with
  | some e => some e.2
  | none => none

/-- Modelled from the spec: the prompt the LLM Client Adapter is invoked
with, built from the triggered rules and the decision (spec §4.4–4.5). -/
def buildPrompt (ids : List String) (d : Decision) : String :=
  "Explain why the charge was " ++ decisionLabel d ++ " given the triggered fraud rules: "
    ++ String.intercalate ", " (sortStrings ids)

/-- Modelled from the spec: the deterministic fallback explanation used
when the adapter fails, distinct for accepted vs declined (spec §4.4;
README "Fallback: Automatic fallback explanations if API unavailable"). -/
def fallbackExplanation : Decision → String
  | .accepted => "Transaction approved: the charge matched no significant fraud risk factors."
  | .declined => "Transaction declined: the charge matched fraud risk factors indicating high risk."

/-- An LLM Client Adapter at its boundary: a prompt goes in and either an
explanation string comes out or the call fails (spec §4.5, §6). -/
abbrev Adapter := String → Option String

/-- Outcome of one `getExplanation` call: the explanation returned, how
many adapter invocations the call made, and the cache state after it. -/
structure GetResult where
  explanation : String
  adapterCalls : Nat
  cache : Cache
deriving DecidableEq, Repr

/-- Modelled from the spec: the Explanation Cache's
`getExplanation(triggeredRuleIds, decision)` (spec §4.4; llm.service.ts
is absent): on hit return the stored explanation with no external call;
on miss invoke the adapter once — on success store and return the
explanation, on failure return the deterministic fallback and do not
cache it. -/
def getExplanation (adapter : Adapter) (c : Cache) (ids : List String) (d : Decision) :
    GetResult :=
  let k := cacheKey ids d
  match lookupCache c k with
  | some e => { explanation := e, adapterCalls := 0, cache := c }
  | none =>
    match adapter (buildPrompt ids d) with
    | some e => { explanation := e, adapterCalls := 1, cache := ⟨(k, e) :: c.entries⟩ }
    | none => { explanation := fallbackExplanation d, adapterCalls := 1, cache := c }

/-- The report returned by the cache's clear operation (spec §6:
`clear() -> {previousSize, currentSize}`; README "DELETE /cache/clear"). -/
structure ClearReport where
  previousSize : Nat
  currentSize : Nat
deriving DecidableEq, Repr

/-- Modelled from the spec: the clear operation — empty the store and
report the entry count from immediately before the call together with
the count after it (spec §4.4, §6; cache.controller.ts is absent). -/
def clearCache (c : Cache) : ClearReport × Cache :=
  ({ previousSize := cacheSize c, currentSize := cacheSize emptyCache }, emptyCache)

/-- Modelled from the spec: an incoming charge request before validation
(README "Request Body"). -/
structure ChargeRequest where
  amount : ℚ
  currency : String
  source : String
  email : String
deriving DecidableEq, Repr

/-- The payment sources the validation layer accepts (README "Validation
Rules": source must be either "stripe" or "paypal"). -/
def VALID_SOURCES : List String := ["stripe", "paypal"]

/-- Uppercase-letter test for the currency-format check. -/
def isUpperAlpha (c : Char) : Bool := decide ('A' ≤ c) && decide (c ≤ 'Z')

/-- Modelled from the spec: the request-validation layer
(validation.service.ts is absent) enforcing the README's validation
rules — amount positive, currency a 3-letter uppercase string, source
either "stripe" or "paypal", email a valid address. -/
def validateCharge (r : ChargeRequest) : Except String ChargeContext :=
  if ¬ (0 < r.amount) then .error "Amount must be a positive number"
  else if ¬ (r.currency.toList.length = 3 ∧ r.currency.toList.all isUpperAlpha = true) then
    .error "Currency must be a 3-letter uppercase string"
  else if ¬ (VALID_SOURCES.contains r.source = true) then
    .error "Source must be either stripe or paypal"
  else if ¬ (strContains r.email "@" = true) then .error "Email must be a valid email address"
  else .ok { amount := r.amount, currency := r.currency, source := r.source, email := r.email }

/-- Outcome of the public charge interface: either a 400 validation
error, or the scoring engine's result (README "Error Response (400)"). -/
inductive ChargeResponse where
  | validationError (msg : String)
  | processed (result : ScoreResult)
deriving DecidableEq, Repr

/-- Modelled from the spec: the public POST /charge pipeline — the
request-validation layer runs first and only a validated request reaches
the Fraud Scoring Engine (README "Validation Rules", "Error Response
(400)"; charge.controller.ts is absent). -/
def processCharge (r : ChargeRequest) : ChargeResponse :=
  match validateCharge r with
  | .error m => .validationError m
  | .ok ctx => .processed (scoreCharge ctx defaultRules defaultExcl)

/-- The worked example charge of spec §8: amount=12000, currency=XYZ,
source=unknown-channel, email=a@temp.com. -/
def exampleHighRiskCtx : ChargeContext :=
  { amount := 12000, currency := "XYZ", source := "unknown-channel", email := "a@temp.com" }

/-- C1: for every ChargeContext and every RuleSet (with any exclusion
table), the score field of the ScoreResult returned by the Fraud Scoring
Engine lies in [0,1]: never negative, never above 1, because the sum of
surviving rule weights is clamped after aggregation. -/
theorem score_in_unit_interval (ctx : ChargeContext) (rules : List FraudRule)
    (excl : ExclusionTable) :
    0 ≤ (scoreCharge ctx rules excl).score ∧ (scoreCharge ctx rules excl).score ≤ 1 := by
  unfold scoreCharge clamp01
  exact ⟨le_max_left 0 _, max_le (by norm_num) (min_le_left 1 _)⟩

/-- C2: the decision is a function of the score alone, with
decide(score) = declined exactly when score ≥ 0.5 (inclusive on the
declined side); in particular decide(0.49999) = accepted and
decide(0.5) = declined. -/
theorem decision_threshold_spec :
    (∀ s : ℚ, decideScore s = Decision.declined ↔ 1/2 ≤ s) ∧
    decideScore (49999/100000) = Decision.accepted ∧
    decideScore (1/2) = Decision.declined := by
  refine ⟨fun s => ?_, ?_, ?_⟩
  · unfold decideScore RISK_THRESHOLD
    split
    · exact iff_of_true rfl (by assumption)
    · exact iff_of_false (by simp) (by assumption)
  · norm_num [decideScore, RISK_THRESHOLD]
  · norm_num [decideScore, RISK_THRESHOLD]

/-- C7: for every cache state, clear() reports previousSize equal to the
entry count immediately before the call and currentSize 0, and leaves
the cache with no entries. -/
theorem clear_reports_previous_size (c : Cache) :
    (clearCache c).1.previousSize = cacheSize c ∧
    (clearCache c).1.currentSize = 0 ∧
    cacheSize (clearCache c).2 = 0 ∧ (clearCache c).2.entries = [] :=
  ⟨rfl, rfl, rfl, rfl⟩

set_option maxHeartbeats 2000000 in
/-- C3: for every ChargeContext with amount > 10000, very_high_amount
survives the exclusion pass and high_amount does not: high_amount is
absent from the triggered-rule report, and the raw weight sum equals
0.5 (very_high_amount's own weight, not 0.8) plus the contribution of
the four rules unrelated to amount. -/
theorem very_high_amount_supersedes_high_amount (ctx : ChargeContext)
    (h : (10000:ℚ) < ctx.amount) :
    "very_high_amount" ∈ (scoreCharge ctx defaultRules defaultExcl).triggeredRuleIds ∧
    "high_amount" ∉ (scoreCharge ctx defaultRules defaultExcl).triggeredRuleIds ∧
    rawScore ctx defaultRules defaultExcl =
      1/2 + rawScore ctx [riskyDomainRule, nonStandardCurrencyRule, suspiciousEmailRule,
        nonStandardSourceRule] defaultExcl := by
  have h5 : ((5000:ℚ) < ctx.amount) := lt_trans (by norm_num) h
  have hH : evalCond ctx highAmountRule.condition = true := by
    simpa [highAmountRule, evalCond] using h5
  have hV : evalCond ctx veryHighAmountRule.condition = true := by
    simpa [veryHighAmountRule, evalCond] using h
  have g1 : "very_high_amount" ∈ (scoreCharge ctx defaultRules defaultExcl).triggeredRuleIds := by
    simp only [scoreCharge, survivors, triggeredRules, defaultRules,
      List.filter_cons, List.filter_nil, hH, hV]
    cases hb1 : evalCond ctx riskyDomainRule.condition <;>
      cases hb2 : evalCond ctx nonStandardCurrencyRule.condition <;>
        cases hb3 : evalCond ctx suspiciousEmailRule.condition <;>
          cases hb4 : evalCond ctx nonStandardSourceRule.condition
    all_goals
      norm_num [defaultExcl, highAmountRule, veryHighAmountRule, riskyDomainRule,
        nonStandardCurrencyRule, suspiciousEmailRule, nonStandardSourceRule]
    all_goals exact ⟨veryHighAmountRule, ⟨by norm_num [veryHighAmountRule], by decide⟩, rfl⟩
  have g2 : "high_amount" ∉ (scoreCharge ctx defaultRules defaultExcl).triggeredRuleIds := by
    simp only [scoreCharge, survivors, triggeredRules, defaultRules,
      List.filter_cons, List.filter_nil, hH, hV]
    cases hb1 : evalCond ctx riskyDomainRule.condition <;>
      cases hb2 : evalCond ctx nonStandardCurrencyRule.condition <;>
        cases hb3 : evalCond ctx suspiciousEmailRule.condition <;>
          cases hb4 : evalCond ctx nonStandardSourceRule.condition
    all_goals
      norm_num [defaultExcl, highAmountRule, veryHighAmountRule, riskyDomainRule,
        nonStandardCurrencyRule, suspiciousEmailRule, nonStandardSourceRule]
    all_goals simp +decide
  have g3 : rawScore ctx defaultRules defaultExcl =
      1/2 + rawScore ctx [riskyDomainRule, nonStandardCurrencyRule, suspiciousEmailRule,
        nonStandardSourceRule] defaultExcl := by
    simp only [rawScore, survivors, triggeredRules, defaultRules,
      List.filter_cons, List.filter_nil, hH, hV]
    cases hb1 : evalCond ctx riskyDomainRule.condition <;>
      cases hb2 : evalCond ctx nonStandardCurrencyRule.condition <;>
        cases hb3 : evalCond ctx suspiciousEmailRule.condition <;>
          cases hb4 : evalCond ctx nonStandardSourceRule.condition
    all_goals
      norm_num [defaultExcl, highAmountRule, veryHighAmountRule, riskyDomainRule,
        nonStandardCurrencyRule, suspiciousEmailRule, nonStandardSourceRule]
    all_goals try norm_num [List.filter_cons, List.filter_nil]
    all_goals try simp +decide
  exact ⟨g1, g2, g3⟩

/-- Witness for C3: the exclusion property applied to a concrete charge
of amount 20000. -/
theorem very_high_amount_supersedes_high_amount_witness :
    "very_high_amount" ∈ (scoreCharge
      { amount := 20000, currency := "USD", source := "stripe", email := "x@y.com" }
      defaultRules defaultExcl).triggeredRuleIds ∧
    "high_amount" ∉ (scoreCharge
      { amount := 20000, currency := "USD", source := "stripe", email := "x@y.com" }
      defaultRules defaultExcl).triggeredRuleIds ∧
    rawScore { amount := 20000, currency := "USD", source := "stripe", email := "x@y.com" }
      defaultRules defaultExcl =
      1/2 + rawScore { amount := 20000, currency := "USD", source := "stripe", email := "x@y.com" }
        [riskyDomainRule, nonStandardCurrencyRule, suspiciousEmailRule,
          nonStandardSourceRule] defaultExcl :=
  very_high_amount_supersedes_high_amount
    { amount := 20000, currency := "USD", source := "stripe", email := "x@y.com" } (by decide)

/-- C4: for the charge {amount=12000, currency=XYZ,
source=unknown-channel, email=a@temp.com} the engine's triggered rules
are exactly very_high_amount, non_standard_currency, suspicious_email
and non_standard_source (no risky-domain rule), the raw weight sum is
1.1, the returned score is clamped to 1.0, and the decision is declined. -/
theorem example_high_risk_charge :
    (scoreCharge exampleHighRiskCtx defaultRules defaultExcl).triggeredRuleIds =
      ["very_high_amount", "non_standard_currency", "suspicious_email", "non_standard_source"] ∧
    rawScore exampleHighRiskCtx defaultRules defaultExcl = 11/10 ∧
    (scoreCharge exampleHighRiskCtx defaultRules defaultExcl).score = 1 ∧
    (scoreCharge exampleHighRiskCtx defaultRules defaultExcl).decision = Decision.declined := by
  refine ⟨?_, ?_, ?_, ?_⟩ <;>
    · norm_num [scoreCharge, survivors, triggeredRules, rawScore, evalCond, strContains,
        strEndsWith, containsL, startsWithL, defaultRules, highAmountRule, veryHighAmountRule,
        riskyDomainRule, nonStandardCurrencyRule, suspiciousEmailRule, nonStandardSourceRule,
        defaultExcl, clamp01, decideScore, RISK_THRESHOLD, exampleHighRiskCtx,
        List.filter_cons, List.filter_nil]
      try simp +decide
      try norm_num

/-- C8: for every ChargeContext and every permutation of a RuleSet, the
Fraud Scoring Engine returns the same score and the same decision as for
the original RuleSet: rule order never affects the numeric score. -/
theorem scoring_order_independent (ctx : ChargeContext) (excl : ExclusionTable)
    (rules rules' : List FraudRule) (h : rules.Perm rules') :
    (scoreCharge ctx rules excl).score = (scoreCharge ctx rules' excl).score ∧
    (scoreCharge ctx rules excl).decision = (scoreCharge ctx rules' excl).decision := by
  have htrig : (triggeredRules ctx rules).Perm (triggeredRules ctx rules') :=
    h.filter _
  have hany : ∀ s : String, (triggeredRules ctx rules).any (fun w => w.id == s)
      = (triggeredRules ctx rules').any (fun w => w.id == s) := by
    intro s
    rw [Bool.eq_iff_iff]
    simp only [List.any_eq_true]
    constructor
    · rintro ⟨x, hx, hfx⟩; exact ⟨x, htrig.mem_iff.mp hx, hfx⟩
    · rintro ⟨x, hx, hfx⟩; exact ⟨x, htrig.mem_iff.mpr hx, hfx⟩
  have hsurv : (survivors ctx rules excl).Perm (survivors ctx rules' excl) := by
    show ((triggeredRules ctx rules).filter (fun r => !(excl.any (fun p => p.1 == r.id &&
        (triggeredRules ctx rules).any (fun w => w.id == p.2))))).Perm
      ((triggeredRules ctx rules').filter (fun r => !(excl.any (fun p => p.1 == r.id &&
        (triggeredRules ctx rules').any (fun w => w.id == p.2)))))
    have hfun : (fun r : FraudRule => !(excl.any (fun p => p.1 == r.id &&
        (triggeredRules ctx rules').any (fun w => w.id == p.2)))) =
        (fun r : FraudRule => !(excl.any (fun p => p.1 == r.id &&
        (triggeredRules ctx rules).any (fun w => w.id == p.2)))) := by
      funext r
      have hp : (fun p : String × String => p.1 == r.id &&
          (triggeredRules ctx rules').any (fun w => w.id == p.2)) =
          (fun p : String × String => p.1 == r.id &&
          (triggeredRules ctx rules).any (fun w => w.id == p.2)) := by
        funext p
        rw [hany]
      rw [hp]
    rw [hfun]
    exact htrig.filter _
  have hraw : rawScore ctx rules excl = rawScore ctx rules' excl := by
    unfold rawScore
    exact (hsurv.map _).sum_eq
  constructor
  · show clamp01 (rawScore ctx rules excl) = clamp01 (rawScore ctx rules' excl)
    rw [hraw]
  · show decideScore (clamp01 (rawScore ctx rules excl))
      = decideScore (clamp01 (rawScore ctx rules' excl))
    rw [hraw]

/-- Witness for C8: swapping the two amount rules leaves score and
decision of the worked example charge unchanged. -/
theorem scoring_order_independent_witness :
    (scoreCharge exampleHighRiskCtx [highAmountRule, veryHighAmountRule] defaultExcl).score =
      (scoreCharge exampleHighRiskCtx [veryHighAmountRule, highAmountRule] defaultExcl).score ∧
    (scoreCharge exampleHighRiskCtx [highAmountRule, veryHighAmountRule] defaultExcl).decision =
      (scoreCharge exampleHighRiskCtx [veryHighAmountRule, highAmountRule] defaultExcl).decision :=
  scoring_order_independent exampleHighRiskCtx defaultExcl
    [highAmountRule, veryHighAmountRule] [veryHighAmountRule, highAmountRule]
    (List.Perm.swap veryHighAmountRule highAmountRule [])

/-- An always-failing LLM adapter (timeout / API error on every call). -/
def failingAdapter : Adapter := fun _ => none

/-- An always-succeeding LLM adapter returning a fixed explanation. -/
def okAdapter : Adapter :=
  fun _ => some "The charge matched several fraud rules and was declined."

/-- C6: on a cache miss where the adapter fails, getExplanation returns
the non-empty deterministic fallback (distinct for accepted vs declined),
does not store it, leaves the entry count unchanged, and a later call
with the same key attempts the adapter again. -/
theorem adapter_failure_not_cached (adapter : Adapter) (c : Cache) (ids : List String)
    (d : Decision)
    (hmiss : lookupCache c (cacheKey ids d) = none)
    (hfail : adapter (buildPrompt ids d) = none) :
    (getExplanation adapter c ids d).explanation = fallbackExplanation d ∧
    (getExplanation adapter c ids d).explanation ≠ "" ∧
    fallbackExplanation Decision.accepted ≠ fallbackExplanation Decision.declined ∧
    (getExplanation adapter c ids d).cache = c ∧
    cacheSize (getExplanation adapter c ids d).cache = cacheSize c ∧
    (∀ adapter2 : Adapter, (getExplanation adapter2 c ids d).adapterCalls = 1) := by
  refine ⟨?_, ?_, by decide, ?_, ?_, ?_⟩
  · simp only [getExplanation, hmiss, hfail]
  · simp only [getExplanation, hmiss, hfail]
    cases d <;> decide
  · simp only [getExplanation, hmiss, hfail]
  · simp only [getExplanation, hmiss, hfail]
  · intro adapter2
    simp only [getExplanation, hmiss]
    cases adapter2 (buildPrompt ids d) <;> rfl

/-- Witness for C6: the failing adapter on the empty cache. -/
theorem adapter_failure_not_cached_witness :
    lookupCache emptyCache (cacheKey ["high_amount"] Decision.declined) = none ∧
    failingAdapter (buildPrompt ["high_amount"] Decision.declined) = none ∧
    ((getExplanation failingAdapter emptyCache ["high_amount"] Decision.declined).explanation
      = fallbackExplanation Decision.declined ∧
    (getExplanation failingAdapter emptyCache ["high_amount"] Decision.declined).explanation ≠ "" ∧
    fallbackExplanation Decision.accepted ≠ fallbackExplanation Decision.declined ∧
    (getExplanation failingAdapter emptyCache ["high_amount"] Decision.declined).cache = emptyCache ∧
    cacheSize (getExplanation failingAdapter emptyCache ["high_amount"] Decision.declined).cache
      = cacheSize emptyCache ∧
    (∀ adapter2 : Adapter,
      (getExplanation adapter2 emptyCache ["high_amount"] Decision.declined).adapterCalls = 1)) :=
  ⟨rfl, rfl,
   adapter_failure_not_cached failingAdapter emptyCache ["high_amount"] Decision.declined rfl rfl⟩

/-- Counterexample for C5 as frozen: with an adapter that fails on every
call, two getExplanation calls with the same key (the failure is not
memoized, per §4.5) invoke the adapter twice, not at most once. -/
theorem cache_at_most_once_counterexample :
    (getExplanation failingAdapter emptyCache ["high_amount"] Decision.declined).adapterCalls +
    (getExplanation failingAdapter
      (getExplanation failingAdapter emptyCache ["high_amount"] Decision.declined).cache
      ["high_amount"] Decision.declined).adapterCalls = 2 := rfl

/-- C5 (amended): once a successful explanation is stored for a key,
any call with that key returns the stored string with no adapter
invocation; and across two calls with the same key, provided the first
call leaves an explanation stored for that key (a hit, or a miss whose
adapter attempt succeeds), the adapter is invoked at most once and the
second call returns the stored explanation. -/
theorem cache_hit_no_reinvocation (adapter : Adapter) (c : Cache) (ids₁ ids₂ : List String)
    (d₁ d₂ : Decision)
    (hkey : cacheKey ids₂ d₂ = cacheKey ids₁ d₁)
    (hstored : lookupCache (getExplanation adapter c ids₁ d₁).cache (cacheKey ids₁ d₁) ≠ none) :
    (∀ e, lookupCache c (cacheKey ids₁ d₁) = some e →
      getExplanation adapter c ids₁ d₁ = ⟨e, 0, c⟩) ∧
    (getExplanation adapter c ids₁ d₁).adapterCalls +
      (getExplanation adapter (getExplanation adapter c ids₁ d₁).cache ids₂ d₂).adapterCalls ≤ 1 ∧
    lookupCache (getExplanation adapter c ids₁ d₁).cache (cacheKey ids₁ d₁) =
      some ((getExplanation adapter
        (getExplanation adapter c ids₁ d₁).cache ids₂ d₂).explanation) := by
  cases hl : lookupCache c (cacheKey ids₁ d₁) with
  | some e =>
    have hr1 : getExplanation adapter c ids₁ d₁ = ⟨e, 0, c⟩ := by
      simp only [getExplanation, hl]
    have hl2 : lookupCache c (cacheKey ids₂ d₂) = some e := by rw [hkey, hl]
    have hr2 : getExplanation adapter c ids₂ d₂ = ⟨e, 0, c⟩ := by
      simp only [getExplanation, hl2]
    refine ⟨?_, ?_, ?_⟩
    · intro e' he'
      cases he'
      exact hr1
    · rw [hr1]
      simp [hr2]
    · rw [hr1]
      simp [hr2, hl]
  | none =>
    cases ha : adapter (buildPrompt ids₁ d₁) with
    | none =>
      exfalso
      apply hstored
      have hr1 : getExplanation adapter c ids₁ d₁ = ⟨fallbackExplanation d₁, 1, c⟩ := by
        simp only [getExplanation, hl, ha]
      rw [hr1]
      exact hl
    | some e =>
      have hr1 : getExplanation adapter c ids₁ d₁ =
          ⟨e, 1, ⟨(cacheKey ids₁ d₁, e) :: c.entries⟩⟩ := by
        simp only [getExplanation, hl, ha]
      have hlook : lookupCache (⟨(cacheKey ids₁ d₁, e) :: c.entries⟩ : Cache)
          (cacheKey ids₂ d₂) = some e := by
        simp only [lookupCache, List.find?, hkey, beq_self_eq_true]
      have hr2 : getExplanation adapter (⟨(cacheKey ids₁ d₁, e) :: c.entries⟩ : Cache) ids₂ d₂ =
          ⟨e, 0, ⟨(cacheKey ids₁ d₁, e) :: c.entries⟩⟩ := by
        simp only [getExplanation, hlook]
      refine ⟨?_, ?_, ?_⟩
      · intro e' he'
        cases he'
      · rw [hr1]
        simp [hr2]
      · rw [hr1]
        simp only [hr2]
        simp [lookupCache, List.find?, beq_self_eq_true]

/-- Witness for C5 (amended): two calls with the same key against a
succeeding adapter, starting from the empty cache. -/
theorem cache_hit_no_reinvocation_witness :
    cacheKey ["high_amount"] Decision.declined = cacheKey ["high_amount"] Decision.declined ∧
    lookupCache (getExplanation okAdapter emptyCache ["high_amount"] Decision.declined).cache
      (cacheKey ["high_amount"] Decision.declined) ≠ none ∧
    ((∀ e, lookupCache emptyCache (cacheKey ["high_amount"] Decision.declined) = some e →
      getExplanation okAdapter emptyCache ["high_amount"] Decision.declined = ⟨e, 0, emptyCache⟩) ∧
    (getExplanation okAdapter emptyCache ["high_amount"] Decision.declined).adapterCalls +
      (getExplanation okAdapter
        (getExplanation okAdapter emptyCache ["high_amount"] Decision.declined).cache
        ["high_amount"] Decision.declined).adapterCalls ≤ 1 ∧
    lookupCache (getExplanation okAdapter emptyCache ["high_amount"] Decision.declined).cache
      (cacheKey ["high_amount"] Decision.declined) =
      some ((getExplanation okAdapter
        (getExplanation okAdapter emptyCache ["high_amount"] Decision.declined).cache
        ["high_amount"] Decision.declined).explanation)) :=
  ⟨rfl,
   by simp [getExplanation, lookupCache, emptyCache, okAdapter, List.find?, beq_self_eq_true],
   cache_hit_no_reinvocation okAdapter emptyCache ["high_amount"] ["high_amount"]
     Decision.declined Decision.declined rfl
     (by simp [getExplanation, lookupCache, emptyCache, okAdapter, List.find?, beq_self_eq_true])⟩

/-- C10: a charge request whose source is neither "stripe" nor "paypal"
is rejected by the validation layer with a validation error (the 400
response), so such a request never reaches the scoring engine through
the public charge interface. -/
theorem invalid_source_rejected_before_scoring (r : ChargeRequest)
    (h1 : r.source ≠ "stripe") (h2 : r.source ≠ "paypal") :
    ∃ m, processCharge r = ChargeResponse.validationError m := by
  have hs : VALID_SOURCES.contains r.source = false := by
    simp [VALID_SOURCES, h1, h2]
  obtain ⟨m, hm⟩ : ∃ m, validateCharge r = Except.error m := by
    simp only [validateCharge, hs]
    split
    · exact ⟨_, rfl⟩
    · split
      · exact ⟨_, rfl⟩
      · split
        · exact ⟨_, rfl⟩
        · rename_i hsrc
          simp at hsrc
  refine ⟨m, ?_⟩
  simp only [processCharge, hm]

/-- Witness for C10: a request with source "unknown-channel" is
rejected. -/
theorem invalid_source_rejected_before_scoring_witness :
    ({ amount := 100, currency := "USD", source := "unknown-channel", email := "a@b.com" }
      : ChargeRequest).source ≠ "stripe" ∧
    ({ amount := 100, currency := "USD", source := "unknown-channel", email := "a@b.com" }
      : ChargeRequest).source ≠ "paypal" ∧
    ∃ m, processCharge
      { amount := 100, currency := "USD", source := "unknown-channel", email := "a@b.com" } =
      ChargeResponse.validationError m :=
  ⟨by decide, by decide,
   invalid_source_rejected_before_scoring
     { amount := 100, currency := "USD", source := "unknown-channel", email := "a@b.com" }
     (by decide) (by decide)⟩

/-- A charge whose email ends with temp.com, a domain listed in the
risky-domain configuration. -/
def tempEmailCtx : ChargeContext :=
  { amount := 100, currency := "USD", source := "stripe", email := "a@temp.com" }

/-- Counterexample for C9 as frozen: "temp.com" is in the risky-domain
configuration and a@temp.com ends with it, yet the risky_domain rule
does not trigger (the rule's condition checks only .ru and .xyz, README
line 177) and the raw score is 0.1 (suspicious_email only), with no 0.4
contribution. -/
theorem risky_domain_temp_com_counterexample :
    strEndsWith tempEmailCtx.email "temp.com" = true ∧
    "temp.com" ∈ riskyDomainsConfig ∧
    "risky_domain" ∉ (scoreCharge tempEmailCtx defaultRules defaultExcl).triggeredRuleIds ∧
    rawScore tempEmailCtx defaultRules defaultExcl = 1/10 := by
  refine ⟨by decide, by decide, ?_, ?_⟩ <;>
    · norm_num [scoreCharge, survivors, triggeredRules, rawScore, evalCond, strContains,
        strEndsWith, containsL, startsWithL, defaultRules, highAmountRule, veryHighAmountRule,
        riskyDomainRule, nonStandardCurrencyRule, suspiciousEmailRule, nonStandardSourceRule,
        defaultExcl, tempEmailCtx, List.filter_cons, List.filter_nil]
      try simp +decide
      try norm_num

set_option maxHeartbeats 4000000 in
/-- C9 (amended): the loaded ruleset contains a risky-domain rule not in
the spec's worked-example list: for every ChargeContext whose email ends
with .ru or .xyz (the domains the rule's condition checks, README line
177 — not the whole riskyDomains.json list), risky_domain triggers and
adds exactly 0.4 to the aggregate score before clamping. -/
theorem risky_domain_rule_adds_weight (ctx : ChargeContext)
    (h : strEndsWith ctx.email ".ru" = true ∨ strEndsWith ctx.email ".xyz" = true) :
    "risky_domain" ∈ (scoreCharge ctx defaultRules defaultExcl).triggeredRuleIds ∧
    rawScore ctx defaultRules defaultExcl =
      2/5 + rawScore ctx [highAmountRule, veryHighAmountRule, nonStandardCurrencyRule,
        suspiciousEmailRule, nonStandardSourceRule] defaultExcl := by
  have hR : evalCond ctx riskyDomainRule.condition = true := by
    simp only [riskyDomainRule, evalCond]
    rcases h with h | h <;> simp [h]
  have g1 : "risky_domain" ∈ (scoreCharge ctx defaultRules defaultExcl).triggeredRuleIds := by
    simp only [scoreCharge, survivors, triggeredRules, defaultRules,
      List.filter_cons, List.filter_nil, hR]
    cases hb1 : evalCond ctx highAmountRule.condition <;>
      cases hb2 : evalCond ctx veryHighAmountRule.condition <;>
        cases hb3 : evalCond ctx nonStandardCurrencyRule.condition <;>
          cases hb4 : evalCond ctx suspiciousEmailRule.condition <;>
            cases hb5 : evalCond ctx nonStandardSourceRule.condition
    all_goals
      norm_num [defaultExcl, highAmountRule, veryHighAmountRule, riskyDomainRule,
        nonStandardCurrencyRule, suspiciousEmailRule, nonStandardSourceRule]
    all_goals try exact ⟨riskyDomainRule, ⟨by norm_num [riskyDomainRule], by decide⟩, rfl⟩
  have g3 : rawScore ctx defaultRules defaultExcl =
      2/5 + rawScore ctx [highAmountRule, veryHighAmountRule, nonStandardCurrencyRule,
        suspiciousEmailRule, nonStandardSourceRule] defaultExcl := by
    simp only [rawScore, survivors, triggeredRules, defaultRules,
      List.filter_cons, List.filter_nil, hR]
    cases hb1 : evalCond ctx highAmountRule.condition <;>
      cases hb2 : evalCond ctx veryHighAmountRule.condition <;>
        cases hb3 : evalCond ctx nonStandardCurrencyRule.condition <;>
          cases hb4 : evalCond ctx suspiciousEmailRule.condition <;>
            cases hb5 : evalCond ctx nonStandardSourceRule.condition
    all_goals
      norm_num [defaultExcl, highAmountRule, veryHighAmountRule, riskyDomainRule,
        nonStandardCurrencyRule, suspiciousEmailRule, nonStandardSourceRule]
    all_goals try norm_num [List.filter_cons, List.filter_nil]
    all_goals try simp +decide
    all_goals try norm_num
  exact ⟨g1, g3⟩

/-- Witness for C9 (amended): a .ru email address triggers risky_domain
and contributes 0.4. -/
theorem risky_domain_rule_adds_weight_witness :
    (strEndsWith "boris@mail.ru" ".ru" = true ∨ strEndsWith "boris@mail.ru" ".xyz" = true) ∧
    ("risky_domain" ∈ (scoreCharge
      { amount := 100, currency := "USD", source := "stripe", email := "boris@mail.ru" }
      defaultRules defaultExcl).triggeredRuleIds ∧
    rawScore { amount := 100, currency := "USD", source := "stripe", email := "boris@mail.ru" }
      defaultRules defaultExcl =
      2/5 + rawScore
        { amount := 100, currency := "USD", source := "stripe", email := "boris@mail.ru" }
        [highAmountRule, veryHighAmountRule, nonStandardCurrencyRule,
          suspiciousEmailRule, nonStandardSourceRule] defaultExcl) :=
  ⟨Or.inl (by decide),
   risky_domain_rule_adds_weight
     { amount := 100, currency := "USD", source := "stripe", email := "boris@mail.ru" }
     (Or.inl (by decide))⟩

end PayGuard
